import Mathlib

/-!
Shallow embedding of the gateway certificate manager (register / renew
orchestration) and of the rules-engine database read path.

The JavaScript source is asynchronous and effectful; we embed it as pure
functions from an explicit environment of collaborator outcomes (subscribe
response, settings-store result, ACME issuance outcome, per-round DNS-challenge
fetch outcomes, file-write outcomes, setEmail outcome) to the observable
behaviour of one invocation: the ordered list of external calls made, the
ordered list of completion-callback invocations, and the final on-disk
certificate state.
-/

namespace Gateway

/-- Truthiness of a JS value that is either `undefined`/`null` (`none`) or a
string: a string is falsy exactly when it is empty. -/
def jsTruthy : Option String → Bool
  | none => false
  | some s => s ≠ ""

/-- JS template-literal rendering of a possibly-undefined string
(`undefined` prints as the text "undefined"). -/
def jsShow : Option String → String
  | none => "undefined"
  | some s => s

/-- The JSON object decoded from the subscribe response body and persisted
verbatim as the `tunneltoken` settings record.  The code reads the fields
`error`, `token` (register) and `name` (renew); absent fields are `none`
(respectively the empty-ish `token` value is just a string here). -/
structure JsonToken where
  error : Option String
  token : String
  name : Option String
deriving Repr, DecidableEq

/-- The certificate bundle returned by a successful ACME issuance
(`results.cert`, `results.privkey`, `results.chain`). -/
structure CertBundle where
  cert : String
  privkey : String
  chain : String
deriving Repr, DecidableEq

/-- Contents of the three certificate artifacts on disk
(`certificate.pem`, `privatekey.pem`, `chain.pem`); `none` means the file
does not exist. -/
structure FsState where
  certificate : Option String
  privatekey : Option String
  chain : Option String
deriving Repr, DecidableEq

/-- Outcome of one `fs.writeFileSync` call: success, or a thrown error
carrying its message. -/
structure WriteOutcomes where
  cert : Except String Unit
  privkey : Except String Unit
  chain : Except String Unit
deriving Repr

/-- Embeds `writeCertificates(results)`: three sequential `fs.writeFileSync`
calls, in source order `certificate.pem`, `privatekey.pem`, `chain.pem`.
A throwing write aborts the remaining writes (the exception propagates to the
caller); the result is the final disk state together with the propagated
error message, if any. -/
def writeCertificates (fs : FsState) (b : CertBundle) (w : WriteOutcomes) :
    FsState × Option String :=
  match w.cert with
  | Except.error e => (fs, some e)
  | Except.ok _ =>
    let fs1 : FsState := ⟨some b.cert, fs.privatekey, fs.chain⟩
    match w.privkey with
    | Except.error e => (fs1, some e)
    | Except.ok _ =>
      let fs2 : FsState := ⟨some b.cert, some b.privkey, fs.chain⟩
      match w.chain with
      | Except.error e => (fs2, some e)
      | Except.ok _ => (⟨some b.cert, some b.privkey, some b.chain⟩, none)

/-- One observable external action of the orchestrator: a registrar HTTP call,
the blocking ACME issuance call, a settings-store access, or a log line. -/
inductive Event where
  | fetchSubscribe (name : String) (email : String) (reclamation : Option String)
  | fetchDnsConfig (token : String) (challenge : String)
  | fetchSetEmail (token : String) (email : String) (optout : Bool)
  | settingsSet (key : String) (value : JsonToken)
  | settingsGet (key : String)
  | acmeRegister (domain : String)
  | logError (msg : String)
deriving Repr, DecidableEq

/-- One invocation of the completion callback: `callback()` (success) or
`callback(e)` (failure with value `e`). -/
inductive CallbackCall where
  | ok
  | err (e : String)
deriving Repr, DecidableEq

/-- An HTTP response received from the registrar: status code and body text. -/
structure HttpResponse where
  status : Nat
  body : String
deriving Repr, DecidableEq

/-- One DNS-challenge round driven by the ACME client: the key-authorization
digest it hands to `leDnsResponse`, and the outcome of the `dnsconfig` fetch
(`Except.error` is a network-level rejection; `Except.ok` is any HTTP response
actually received, whatever its status). -/
structure DnsRound where
  keyAuthDigest : String
  fetchResult : Except String HttpResponse
deriving Repr

/-- The error object a failed ACME issuance rejects with: the code reads
`err.detail` (may be absent) and `err.message`. -/
structure AcmeError where
  detail : Option String
  message : String
deriving Repr, DecidableEq

/-- Outcome of the blocking `le.register` call. -/
inductive AcmeOutcome where
  | success (b : CertBundle)
  | failure (e : AcmeError)
deriving Repr

/-- Outcome of the subscribe step: the fetch (or `res.text()`) rejected, the
body was not valid JSON (`JSON.parse` threw), or it decoded to an object. -/
inductive SubscribeOutcome where
  | netFail (e : String)
  | parseFail (e : String)
  | ok (j : JsonToken)
deriving Repr

/-- Embeds `err.message.substring(0, err.message.indexOf('\n'))`: in JS,
`indexOf` returns -1 when there is no newline and `substring(0, -1)` clamps to
the empty string. -/
def messageFirstLine (m : String) : String :=
  if m.contains '\n' then m.takeWhile (fun c => c ≠ '\n') else ""

/-- Embeds `err.detail || err.message.substring(0, err.message.indexOf('\n'))`
(the value passed to the callback when issuance fails); `detail` is falsy when
absent or the empty string. -/
def acmeErrArg (e : AcmeError) : String :=
  match e.detail with
  | some d => if d = "" then messageFirstLine e.message else d
  | none => messageFirstLine e.message

/-- The reclamation-token query parameter appended to the subscribe URL:
present (and trimmed) exactly when the supplied token is truthy. -/
def subscribeReclArg (reclamationToken : Option String) : Option String :=
  if jsTruthy reclamationToken then some ((reclamationToken.getD "").trim)
  else none

/-- Embeds the `leDnsResponse` closure installed on the DNS challenge object:
it fetches `/dnsconfig?token=...&challenge=keyAuthDigest` and resolves
`Success!` after merely reading the body; on fetch rejection it logs, invokes
the outer completion callback with the error, and rejects.  Result: events
emitted, callback invocations made, and the promise outcome. -/
def leDnsResponse (token : String) (r : DnsRound) :
    List Event × List CallbackCall × Except String String :=
  match r.fetchResult with
  | Except.ok _resp =>
    ([Event.fetchDnsConfig token r.keyAuthDigest], [], Except.ok "Success!")
  | Except.error e =>
    ([Event.fetchDnsConfig token r.keyAuthDigest,
      Event.logError ("Failed to set DNS token on registration server: " ++ e)],
     [CallbackCall.err e], Except.error e)

/-- The events and callback invocations produced by the challenge rounds the
ACME client drives during one issuance (each round runs `leDnsResponse`). -/
def runDnsRounds (token : String) : List DnsRound → List Event × List CallbackCall
  | [] => ([], [])
  | r :: rest =>
    let h := leDnsResponse token r
    let t := runDnsRounds token rest
    (h.1 ++ t.1, h.2.1 ++ t.2)

/-- The environment of collaborator outcomes for one `register` invocation. -/
structure RegisterEnv where
  subscribe : SubscribeOutcome
  settingsSet : Except String Unit
  dnsRounds : List DnsRound
  acme : AcmeOutcome
  writes : WriteOutcomes
  setEmail : Except String Unit
  fs0 : FsState

/-- The observable behaviour of one `register` invocation: external calls in
order, completion-callback invocations in order, final certificate files. -/
structure RegisterResult where
  events : List Event
  callbacks : List CallbackCall
  fs : FsState
deriving Repr

/-- Embeds `register(email, reclamationToken, subdomain, fulldomain, optout,
callback)`.  Faithful to the source control flow: the subscribe `try` block
covers the fetch, `JSON.parse`, the `jsonToken.error` check and
`Settings.set`; the issuance `try` block covers `le.register`,
`writeCertificates` and (unless a reclamation token is truthy) the `setemail`
fetch with its inner `try`; the issuance `catch` invokes the callback with
`err.detail || first line of err.message` and — not returning — falls through
to the final `callback()`. -/
def register (email : String) (reclamationToken : Option String)
    (subdomain : String) (fulldomain : String) (optout : Bool)
    (env : RegisterEnv) : RegisterResult :=
  let subEv := Event.fetchSubscribe subdomain email (subscribeReclArg reclamationToken)
  match env.subscribe with
  | SubscribeOutcome.netFail e =>
    ⟨[subEv, Event.logError ("Failed to subscribe: " ++ e)],
     [CallbackCall.err e], env.fs0⟩
  | SubscribeOutcome.parseFail e =>
    ⟨[subEv, Event.logError ("Failed to subscribe: " ++ e)],
     [CallbackCall.err e], env.fs0⟩
  | SubscribeOutcome.ok j =>
    if jsTruthy j.error then
      ⟨[subEv], [CallbackCall.err (j.error.getD "")], env.fs0⟩
    else
      match env.settingsSet with
      | Except.error e =>
        ⟨[subEv, Event.logError ("Failed to subscribe: " ++ e)],
         [CallbackCall.err e], env.fs0⟩
      | Except.ok _ =>
        let token := j.token
        let dns := runDnsRounds token env.dnsRounds
        let pre := subEv :: Event.settingsSet "tunneltoken" j ::
          Event.acmeRegister fulldomain :: dns.1
        match env.acme with
        | AcmeOutcome.failure e =>
          ⟨pre ++ [Event.logError ("Registration failed: " ++ e.message)],
           dns.2 ++ [CallbackCall.err (acmeErrArg e), CallbackCall.ok], env.fs0⟩
        | AcmeOutcome.success b =>
          match writeCertificates env.fs0 b env.writes with
          | (fs1, some msg) =>
            ⟨pre ++ [Event.logError ("Registration failed: " ++ msg)],
             dns.2 ++ [CallbackCall.err (messageFirstLine msg), CallbackCall.ok],
             fs1⟩
          | (fs1, none) =>
            if jsTruthy reclamationToken then
              ⟨pre, dns.2 ++ [CallbackCall.ok], fs1⟩
            else
              match env.setEmail with
              | Except.error e =>
                ⟨pre ++ [Event.fetchSetEmail token email optout,
                         Event.logError ("Failed to set email on server: " ++ e)],
                 dns.2 ++ [CallbackCall.err e], fs1⟩
              | Except.ok _ =>
                ⟨pre ++ [Event.fetchSetEmail token email optout],
                 dns.2 ++ [CallbackCall.ok], fs1⟩

/-- The environment of collaborator outcomes for one `renew` invocation. -/
structure RenewEnv where
  settingsGet : Except String JsonToken
  acme : AcmeOutcome
  writes : WriteOutcomes
  fs0 : FsState

/-- The observable behaviour of one `renew` invocation (no callback:
failures are only logged). -/
structure RenewResult where
  events : List Event
  fs : FsState
deriving Repr

/-- Embeds `renew()`: load the `tunneltoken` record (aborting with a log line
when that throws), rebuild the domain from its `name` field and the configured
base domain, run the HTTP-01 issuance, and write the certificates; issuance or
write failures are caught and logged only. -/
def renew (baseDomain : String) (env : RenewEnv) : RenewResult :=
  let getEv := Event.settingsGet "tunneltoken"
  match env.settingsGet with
  | Except.error _ =>
    ⟨[getEv, Event.logError "Tunnel token not set!"], env.fs0⟩
  | Except.ok tok =>
    let domain := jsShow tok.name ++ "." ++ baseDomain
    match env.acme with
    | AcmeOutcome.failure e =>
      ⟨[getEv, Event.acmeRegister domain,
        Event.logError ("Renewal failed: " ++ e.message)], env.fs0⟩
    | AcmeOutcome.success b =>
      match writeCertificates env.fs0 b env.writes with
      | (fs1, some msg) =>
        ⟨[getEv, Event.acmeRegister domain,
          Event.logError ("Renewal failed: " ++ msg)], fs1⟩
      | (fs1, none) =>
        ⟨[getEv, Event.acmeRegister domain], fs1⟩

/-- Number of network calls (registrar HTTP requests or ACME exchanges) in a
trace. -/
def countNetworkCalls : List Event → Nat
  | [] => 0
  | Event.fetchSubscribe _ _ _ :: rest => countNetworkCalls rest + 1
  | Event.fetchDnsConfig _ _ :: rest => countNetworkCalls rest + 1
  | Event.fetchSetEmail _ _ _ :: rest => countNetworkCalls rest + 1
  | Event.acmeRegister _ :: rest => countNetworkCalls rest + 1
  | _ :: rest => countNetworkCalls rest

/-- Number of `setemail` requests in a trace. -/
def countSetEmail : List Event → Nat
  | [] => 0
  | Event.fetchSetEmail _ _ _ :: rest => countSetEmail rest + 1
  | _ :: rest => countSetEmail rest

/-- The challenge values sent to the `dnsconfig` endpoint, in request order. -/
def dnsChallengesSent : List Event → List String
  | [] => []
  | Event.fetchDnsConfig _ c :: rest => c :: dnsChallengesSent rest
  | _ :: rest => dnsChallengesSent rest

/-- The values persisted as the `tunneltoken` settings record, in order. -/
def tunnelTokensPersisted : List Event → List JsonToken
  | [] => []
  | Event.settingsSet _ v :: rest => v :: tunnelTokensPersisted rest
  | _ :: rest => tunnelTokensPersisted rest

end Gateway

namespace RulesEngine

/-- Embeds `Database.getRules` over the rows of the `rules` table, with the
stored descriptions already JSON-decoded (ids are the integer primary keys).
Source loop: for each row, `migrate` the description; when it returns a truthy
(non-null) result, that result replaces the description and an `updateRule`
write is queued; the row's entry in the returned mapping is the (possibly
replaced) description.  `Promise.all` awaits every queued `updateRule` before
`resolve(rules)`, so the second component below (the queued updates) is
persisted before the first (the mapping) is handed to the caller. -/
def getRules (migrate : α → Option α) :
    List (Nat × α) → List (Nat × α) × List (Nat × α)
  | [] => ([], [])
  | (id, desc) :: rest =>
    let t := getRules migrate rest
    match migrate desc with
    | some d => ((id, d) :: t.1, (id, d) :: t.2)
    | none => ((id, desc) :: t.1, t.2)

end RulesEngine

namespace Gateway

theorem countSetEmail_append (a b : List Event) :
    countSetEmail (a ++ b) = countSetEmail a + countSetEmail b := by
  induction a with
  | nil => simp [countSetEmail]
  | cons ev rest ih => cases ev <;> (simp [countSetEmail, ih]; try omega)

theorem countNetworkCalls_append (a b : List Event) :
    countNetworkCalls (a ++ b) = countNetworkCalls a + countNetworkCalls b := by
  induction a with
  | nil => simp [countNetworkCalls]
  | cons ev rest ih => cases ev <;> simp [countNetworkCalls, ih] <;> omega

theorem dnsChallengesSent_append (a b : List Event) :
    dnsChallengesSent (a ++ b) = dnsChallengesSent a ++ dnsChallengesSent b := by
  induction a with
  | nil => simp [dnsChallengesSent]
  | cons ev rest ih => cases ev <;> simp [dnsChallengesSent, ih]

theorem tunnelTokensPersisted_append (a b : List Event) :
    tunnelTokensPersisted (a ++ b) =
      tunnelTokensPersisted a ++ tunnelTokensPersisted b := by
  induction a with
  | nil => simp [tunnelTokensPersisted]
  | cons ev rest ih => cases ev <;> simp [tunnelTokensPersisted, ih]

theorem jsTruthy_none : jsTruthy none = false := rfl

theorem tunnelTokensPersisted_dnsEvents (token : String)
    (rounds : List DnsRound) :
    tunnelTokensPersisted
      (rounds.map fun r => Event.fetchDnsConfig token r.keyAuthDigest) = [] := by
  induction rounds with
  | nil => rfl
  | cons r rest ih => simp [tunnelTokensPersisted, ih]

theorem countSetEmail_dnsEvents (token : String) (rounds : List DnsRound) :
    countSetEmail
      (rounds.map fun r => Event.fetchDnsConfig token r.keyAuthDigest) = 0 := by
  induction rounds with
  | nil => rfl
  | cons r rest ih => simp [countSetEmail, ih]

theorem runDnsRounds_cons_fst (token : String) (r : DnsRound)
    (rest : List DnsRound) :
    (runDnsRounds token (r :: rest)).1 =
      (leDnsResponse token r).1 ++ (runDnsRounds token rest).1 := rfl

theorem runDnsRounds_cons_snd (token : String) (r : DnsRound)
    (rest : List DnsRound) :
    (runDnsRounds token (r :: rest)).2 =
      (leDnsResponse token r).2.1 ++ (runDnsRounds token rest).2 := rfl

theorem countSetEmail_leDnsResponse (token : String) (r : DnsRound) :
    countSetEmail (leDnsResponse token r).1 = 0 := by
  cases hfr : r.fetchResult <;> simp [leDnsResponse, hfr, countSetEmail]

theorem dnsChallengesSent_leDnsResponse (token : String) (r : DnsRound) :
    dnsChallengesSent (leDnsResponse token r).1 = [r.keyAuthDigest] := by
  cases hfr : r.fetchResult <;> simp [leDnsResponse, hfr, dnsChallengesSent]

theorem countSetEmail_runDnsRounds (token : String) (rounds : List DnsRound) :
    countSetEmail (runDnsRounds token rounds).1 = 0 := by
  induction rounds with
  | nil => rfl
  | cons r rest ih =>
    rw [runDnsRounds_cons_fst, countSetEmail_append, ih,
      countSetEmail_leDnsResponse]

theorem dnsChallengesSent_runDnsRounds (token : String) (rounds : List DnsRound) :
    dnsChallengesSent (runDnsRounds token rounds).1 =
      rounds.map DnsRound.keyAuthDigest := by
  induction rounds with
  | nil => rfl
  | cons r rest ih =>
    rw [runDnsRounds_cons_fst, dnsChallengesSent_append, ih,
      dnsChallengesSent_leDnsResponse]
    simp

theorem runDnsRounds_allOk (token : String) (rounds : List DnsRound)
    (h : ∀ r ∈ rounds, ∃ resp, r.fetchResult = Except.ok resp) :
    runDnsRounds token rounds =
      (rounds.map (fun r => Event.fetchDnsConfig token r.keyAuthDigest), []) := by
  induction rounds with
  | nil => rfl
  | cons r rest ih =>
    obtain ⟨resp, hresp⟩ := h r (List.mem_cons_self r rest)
    have ht := ih fun x hx => h x (List.mem_cons_of_mem r hx)
    simp [runDnsRounds, leDnsResponse, hresp, ht]

end Gateway

namespace Gateway

/-- Claim C2: the claim asserts writeCertificates is all-or-nothing; the code
performs three independent sequential writes, so a failure of the second
write leaves `certificate.pem` holding the new bundle while `privatekey.pem`
and `chain.pem` keep their prior contents — the claim is false at this
concrete input. -/
theorem writeCertificates_atomicity_counterexample :
    (writeCertificates ⟨some "old-cert", some "old-key", some "old-chain"⟩
        ⟨"new-cert", "new-key", "new-chain"⟩
        ⟨Except.ok (), Except.error "ENOSPC", Except.ok ()⟩).1 =
      FsState.mk (some "new-cert") (some "old-key") (some "old-chain") ∧
    FsState.mk (some "new-cert") (some "old-key") (some "old-chain") ≠
      FsState.mk (some "old-cert") (some "old-key") (some "old-chain") ∧
    FsState.mk (some "new-cert") (some "old-key") (some "old-chain") ≠
      FsState.mk (some "new-cert") (some "new-key") (some "new-chain") := by
  refine ⟨rfl, by decide, by decide⟩

/-- Claim C2 (amended): writeCertificates writes the three artifacts sequentially in
the order `certificate.pem`, `privatekey.pem`, `chain.pem`, stopping at the
first failing write: artifacts written before the failure hold the new bundle,
the failing one and the later ones keep their prior contents, and when every
write succeeds all three artifacts hold the new bundle and no error is
reported. -/
theorem writeCertificates_sequential (fs : FsState) (b : CertBundle)
    (w : WriteOutcomes) :
    (w.cert = Except.ok () → w.privkey = Except.ok () → w.chain = Except.ok () →
      writeCertificates fs b w =
        (⟨some b.cert, some b.privkey, some b.chain⟩, none)) ∧
    (∀ e, w.cert = Except.error e →
      writeCertificates fs b w = (fs, some e)) ∧
    (∀ e, w.cert = Except.ok () → w.privkey = Except.error e →
      writeCertificates fs b w = (⟨some b.cert, fs.privatekey, fs.chain⟩, some e)) ∧
    (∀ e, w.cert = Except.ok () → w.privkey = Except.ok () →
        w.chain = Except.error e →
      writeCertificates fs b w =
        (⟨some b.cert, some b.privkey, fs.chain⟩, some e)) := by
  obtain ⟨wc, wp, wch⟩ := w
  refine ⟨?_, ?_, ?_, ?_⟩
  · intro h1 h2 h3
    simp only at h1 h2 h3
    subst h1; subst h2; subst h3
    rfl
  · intro e h1
    simp only at h1
    subst h1
    rfl
  · intro e h1 h2
    simp only at h1 h2
    subst h1; subst h2
    rfl
  · intro e h1 h2 h3
    simp only at h1 h2 h3
    subst h1; subst h2; subst h3
    rfl

/-- Claim C2 (amended) at a concrete input: with every write succeeding, the final
state holds exactly the new bundle. -/
theorem writeCertificates_sequential_witness :
    writeCertificates ⟨some "old-cert", some "old-key", some "old-chain"⟩
        ⟨"new-cert", "new-key", "new-chain"⟩
        ⟨Except.ok (), Except.ok (), Except.ok ()⟩ =
      (⟨some "new-cert", some "new-key", some "new-chain"⟩, none) :=
  (writeCertificates_sequential _ _ _).1 rfl rfl rfl

/-- A decoded subscribe response whose `error` field is present but empty:
JS truthiness makes `if (jsonToken.error)` take the non-error path. -/
def subscribeErrEmpty : JsonToken := ⟨some "", "tok", none⟩

/-- Environment for the C3 counterexample: the subscribe body decodes to an
object that does contain an `error` field (the empty string), every local
collaborator succeeds, and the ACME issuance fails. -/
def envErrEmptyField : RegisterEnv :=
  ⟨SubscribeOutcome.ok subscribeErrEmpty, Except.ok (), [],
   AcmeOutcome.failure ⟨none, "boom"⟩,
   ⟨Except.ok (), Except.ok (), Except.ok ()⟩, Except.ok (), ⟨none, none, none⟩⟩

/-- Claim C3: the claim quantifies over responses whose decoded body contains an
`error` field; when that field holds the empty string the code's truthiness
test passes it through, so register persists the settings record and starts
the ACME issuance — side effects the claim forbids. -/
theorem register_error_field_counterexample :
    Event.settingsSet "tunneltoken" subscribeErrEmpty ∈
      (register "user@example.com" none "mygateway" "mygateway.example.com"
        false envErrEmptyField).events ∧
    Event.acmeRegister "mygateway.example.com" ∈
      (register "user@example.com" none "mygateway" "mygateway.example.com"
        false envErrEmptyField).events := by
  constructor <;> simp [register, envErrEmptyField, subscribeErrEmpty, jsTruthy,
    runDnsRounds]

/-- Claim C3 (amended): when the subscribe response body decodes to an object whose
`error` field is truthy (present and non-empty), register terminates with that
error as the single callback value and performs no further side effects: the
trace holds only the subscribe call itself — no `dnsconfig` call, no ACME
issuance, no settings record persisted — and the certificate files are
unchanged. -/
theorem register_subscribe_error_fail_fast (email sub full : String)
    (reclamationToken : Option String) (optout : Bool) (env : RegisterEnv)
    (j : JsonToken) (hs : env.subscribe = SubscribeOutcome.ok j)
    (he : jsTruthy j.error = true) :
    register email reclamationToken sub full optout env =
      ⟨[Event.fetchSubscribe sub email (subscribeReclArg reclamationToken)],
       [CallbackCall.err (j.error.getD "")], env.fs0⟩ := by
  simp [register, hs, he]

/-- Claim C3 (amended) at a concrete input: subscribe answers with
`error = "name taken"` and register stops with exactly that error. -/
theorem register_subscribe_error_fail_fast_witness :
    register "user@example.com" none "mygateway" "mygateway.example.com" false
        ⟨SubscribeOutcome.ok ⟨some "name taken", "", none⟩, Except.ok (), [],
         AcmeOutcome.failure ⟨none, "unused"⟩,
         ⟨Except.ok (), Except.ok (), Except.ok ()⟩, Except.ok (),
         ⟨some "c", some "k", some "h"⟩⟩ =
      ⟨[Event.fetchSubscribe "mygateway" "user@example.com" none],
       [CallbackCall.err "name taken"], ⟨some "c", some "k", some "h"⟩⟩ :=
  register_subscribe_error_fail_fast "user@example.com" "mygateway"
    "mygateway.example.com" none false _ ⟨some "name taken", "", none⟩ rfl
    (by decide)

/-- Claim C4: when loading the persisted tunnel token fails, renew stops after the
settings read and one log line: the trace contains zero network calls and the
certificate artifacts on disk are exactly the prior ones. -/
theorem renew_no_token (baseDomain : String) (env : RenewEnv) (e : String)
    (h : env.settingsGet = Except.error e) :
    (renew baseDomain env).events =
      [Event.settingsGet "tunneltoken",
       Event.logError "Tunnel token not set!"] ∧
    countNetworkCalls (renew baseDomain env).events = 0 ∧
    (renew baseDomain env).fs = env.fs0 := by
  refine ⟨?_, ?_, ?_⟩ <;> simp [renew, h, countNetworkCalls]

/-- Claim C4 at a concrete input: a missing token leaves the three artifacts as
they were and makes no network call. -/
theorem renew_no_token_witness :
    countNetworkCalls (renew "example.com"
        ⟨Except.error "missing", AcmeOutcome.failure ⟨none, "unused"⟩,
         ⟨Except.ok (), Except.ok (), Except.ok ()⟩,
         ⟨some "c", some "k", some "h"⟩⟩).events = 0 ∧
    (renew "example.com"
        ⟨Except.error "missing", AcmeOutcome.failure ⟨none, "unused"⟩,
         ⟨Except.ok (), Except.ok (), Except.ok ()⟩,
         ⟨some "c", some "k", some "h"⟩⟩).fs = ⟨some "c", some "k", some "h"⟩ :=
  ⟨(renew_no_token "example.com" _ "missing" rfl).2.1,
   (renew_no_token "example.com" _ "missing" rfl).2.2⟩

/-- Claim C5: whenever a non-empty reclamation token is supplied, the `setemail`
endpoint is never called, whatever the outcomes of every collaborator. -/
theorem register_reclamation_no_setEmail (email rt sub full : String)
    (optout : Bool) (env : RegisterEnv) (hrt : rt ≠ "") :
    countSetEmail (register email (some rt) sub full optout env).events = 0 := by
  have htr : jsTruthy (some rt) = true := by simp [jsTruthy, hrt]
  obtain ⟨subo, st, rounds, acme, w, se, fs0⟩ := env
  cases subo with
  | netFail e => simp [register, countSetEmail]
  | parseFail e => simp [register, countSetEmail]
  | ok j =>
    by_cases hj : jsTruthy j.error
    · simp [register, hj, countSetEmail]
    · cases st with
      | error e => simp [register, hj, countSetEmail]
      | ok u =>
        cases acme with
        | failure e =>
          simp [register, hj, countSetEmail, countSetEmail_append,
            countSetEmail_runDnsRounds]
        | success b =>
          rcases hw : writeCertificates fs0 b w with ⟨fs1, werr⟩
          cases werr with
          | some msg =>
            simp [register, hj, hw, countSetEmail, countSetEmail_append,
              countSetEmail_runDnsRounds]
          | none =>
            simp [register, hj, hw, htr, countSetEmail, countSetEmail_append,
              countSetEmail_runDnsRounds]

/-- Claim C5 at a concrete input: a fully successful reclamation run makes no
`setemail` call. -/
theorem register_reclamation_no_setEmail_witness :
    ("reclaim-me" ≠ "") ∧
    countSetEmail (register "user@example.com" (some "reclaim-me") "mygateway"
        "mygateway.example.com" false
        ⟨SubscribeOutcome.ok ⟨none, "abc123", none⟩, Except.ok (), [],
         AcmeOutcome.success ⟨"nc", "nk", "nh"⟩,
         ⟨Except.ok (), Except.ok (), Except.ok ()⟩, Except.ok (),
         ⟨none, none, none⟩⟩).events = 0 :=
  ⟨by decide,
   register_reclamation_no_setEmail "user@example.com" "reclaim-me" "mygateway"
     "mygateway.example.com" false _ (by decide)⟩

/-- Environment for the C1 failing input: subscribe succeeds with token
`abc123`, the token is saved, no challenge round happens, and the ACME
issuance rejects with `detail = "rate limited"`. -/
def envIssuanceFail : RegisterEnv :=
  ⟨SubscribeOutcome.ok ⟨none, "abc123", none⟩, Except.ok (), [],
   AcmeOutcome.failure ⟨some "rate limited", "Error: rate limited"⟩,
   ⟨Except.ok (), Except.ok (), Except.ok ()⟩, Except.ok (),
   ⟨none, none, none⟩⟩

/-- Claim C1, evaluated at the failing input: when the ACME issuance fails,
the catch block invokes the callback with the error and — lacking a return —
control falls through to the final `callback()`, so the completion callback
fires twice: once with an error and once as success.  This contradicts the
claim's exactly-once, error-xor-success guarantee. -/
theorem register_issuance_failure_double_callback :
    (register "user@example.com" none "mygateway" "mygateway.example.com"
        false envIssuanceFail).callbacks =
      [CallbackCall.err "rate limited", CallbackCall.ok] := by
  simp [register, envIssuanceFail, jsTruthy, runDnsRounds, acmeErrArg]

/-- Auxiliary: the DNS-challenge rounds never persist a settings record. -/
theorem tunnelTokensPersisted_runDnsRounds (token : String)
    (rounds : List DnsRound) :
    tunnelTokensPersisted (runDnsRounds token rounds).1 = [] := by
  induction rounds with
  | nil => rfl
  | cons r rest ih =>
    rw [runDnsRounds_cons_fst, tunnelTokensPersisted_append, ih]
    cases hfr : r.fetchResult <;>
      simp [leDnsResponse, hfr, tunnelTokensPersisted]

/-- Claim C6: when every step up to and including the certificate write
succeeds, no reclamation token was given, and the `setemail` call fails,
register surfaces that failure as the single callback value while the three
certificate artifacts keep the freshly issued bundle. -/
theorem register_setEmail_failure_keeps_certs (email sub full : String)
    (optout : Bool) (env : RegisterEnv) (j : JsonToken) (b : CertBundle)
    (e : String)
    (hs : env.subscribe = SubscribeOutcome.ok j)
    (hj : jsTruthy j.error = false)
    (hst : env.settingsSet = Except.ok ())
    (hr : ∀ r ∈ env.dnsRounds, ∃ resp, r.fetchResult = Except.ok resp)
    (ha : env.acme = AcmeOutcome.success b)
    (hw : env.writes = ⟨Except.ok (), Except.ok (), Except.ok ()⟩)
    (hse : env.setEmail = Except.error e) :
    (register email none sub full optout env).callbacks =
      [CallbackCall.err e] ∧
    (register email none sub full optout env).fs =
      ⟨some b.cert, some b.privkey, some b.chain⟩ := by
  have hdns := runDnsRounds_allOk j.token env.dnsRounds hr
  constructor <;>
    simp [register, hs, hj, hst, ha, hw, hse, hdns, writeCertificates,
      jsTruthy_none]

/-- Claim C6 at a concrete input: certificates written, then `setemail` fails;
the run reports exactly that error and the new bundle stays on disk. -/
theorem register_setEmail_failure_keeps_certs_witness :
    (register "user@example.com" none "mygateway" "mygateway.example.com"
        false
        ⟨SubscribeOutcome.ok ⟨none, "abc123", none⟩, Except.ok (), [],
         AcmeOutcome.success ⟨"nc", "nk", "nh"⟩,
         ⟨Except.ok (), Except.ok (), Except.ok ()⟩,
         Except.error "ECONNRESET", ⟨none, none, none⟩⟩).callbacks =
      [CallbackCall.err "ECONNRESET"] ∧
    (register "user@example.com" none "mygateway" "mygateway.example.com"
        false
        ⟨SubscribeOutcome.ok ⟨none, "abc123", none⟩, Except.ok (), [],
         AcmeOutcome.success ⟨"nc", "nk", "nh"⟩,
         ⟨Except.ok (), Except.ok (), Except.ok ()⟩,
         Except.error "ECONNRESET", ⟨none, none, none⟩⟩).fs =
      ⟨some "nc", some "nk", some "nh"⟩ :=
  register_setEmail_failure_keeps_certs "user@example.com" "mygateway"
    "mygateway.example.com" false _ ⟨none, "abc123", none⟩ ⟨"nc", "nk", "nh"⟩
    "ECONNRESET" rfl (by decide) rfl (by simp) rfl rfl rfl

/-- The decoded subscribe response for the C7 counterexample: the remote
server answers with a token but without any `name` field.  The code persists
this object verbatim. -/
def jNoName : JsonToken := ⟨none, "abc123", none⟩

/-- Environment for the C7 counterexample: every collaborator call succeeds;
only the shape of the (server-chosen) subscribe response varies. -/
def envServerOmitsName : RegisterEnv :=
  ⟨SubscribeOutcome.ok jNoName, Except.ok (), [],
   AcmeOutcome.success ⟨"nc", "nk", "nh"⟩,
   ⟨Except.ok (), Except.ok (), Except.ok ()⟩, Except.ok (),
   ⟨none, none, none⟩⟩

/-- Claim C7: with all collaborator calls succeeding, the persisted
`tunneltoken` record is the subscribe response itself; the code never builds a
record with `name = subdomain`, so when the server omits the `name` field the
run completes successfully yet the persisted record's name differs from the
requested subdomain — the claim's first conjunct fails. -/
theorem register_persisted_name_counterexample :
    (register "user@example.com" none "mygateway" "mygateway.example.com"
        false envServerOmitsName).callbacks = [CallbackCall.ok] ∧
    tunnelTokensPersisted (register "user@example.com" none "mygateway"
        "mygateway.example.com" false envServerOmitsName).events = [jNoName] ∧
    jNoName.name ≠ some "mygateway" := by
  refine ⟨?_, ?_, by decide⟩ <;>
    simp [register, envServerOmitsName, jNoName, jsTruthy, runDnsRounds,
      writeCertificates, tunnelTokensPersisted]

/-- Claim C7 (amended): without a reclamation token, for any subscribe
response without a truthy error and with every collaborator call succeeding,
register ends with: the decoded subscribe response persisted verbatim as the
single `tunneltoken` record (its `name` equals the requested subdomain exactly
when the server returned it so), all three certificate artifacts holding the
one returned bundle, `setemail` invoked exactly once, and a single success
callback. -/
theorem register_success_no_reclamation (email sub full : String)
    (optout : Bool) (env : RegisterEnv) (j : JsonToken) (b : CertBundle)
    (hs : env.subscribe = SubscribeOutcome.ok j)
    (hj : jsTruthy j.error = false)
    (hst : env.settingsSet = Except.ok ())
    (hr : ∀ r ∈ env.dnsRounds, ∃ resp, r.fetchResult = Except.ok resp)
    (ha : env.acme = AcmeOutcome.success b)
    (hw : env.writes = ⟨Except.ok (), Except.ok (), Except.ok ()⟩)
    (hse : env.setEmail = Except.ok ()) :
    tunnelTokensPersisted (register email none sub full optout env).events =
      [j] ∧
    (register email none sub full optout env).fs =
      ⟨some b.cert, some b.privkey, some b.chain⟩ ∧
    countSetEmail (register email none sub full optout env).events = 1 ∧
    (register email none sub full optout env).callbacks = [CallbackCall.ok] := by
  have hdns := runDnsRounds_allOk j.token env.dnsRounds hr
  refine ⟨?_, ?_, ?_, ?_⟩ <;>
    simp [register, hs, hj, hst, ha, hw, hse, hdns, writeCertificates,
      jsTruthy_none, tunnelTokensPersisted, tunnelTokensPersisted_append,
      tunnelTokensPersisted_dnsEvents, countSetEmail, countSetEmail_append,
      countSetEmail_dnsEvents]

/-- Claim C7 (amended) at a concrete input: the end-to-end success scenario of
the spec, with the server echoing `name = "mygateway"`. -/
theorem register_success_no_reclamation_witness :
    tunnelTokensPersisted (register "user@example.com" none "mygateway"
        "mygateway.example.com" false
        ⟨SubscribeOutcome.ok ⟨none, "abc123", some "mygateway"⟩, Except.ok (),
         [], AcmeOutcome.success ⟨"nc", "nk", "nh"⟩,
         ⟨Except.ok (), Except.ok (), Except.ok ()⟩, Except.ok (),
         ⟨none, none, none⟩⟩).events = [⟨none, "abc123", some "mygateway"⟩] ∧
    (register "user@example.com" none "mygateway" "mygateway.example.com"
        false
        ⟨SubscribeOutcome.ok ⟨none, "abc123", some "mygateway"⟩, Except.ok (),
         [], AcmeOutcome.success ⟨"nc", "nk", "nh"⟩,
         ⟨Except.ok (), Except.ok (), Except.ok ()⟩, Except.ok (),
         ⟨none, none, none⟩⟩).fs = ⟨some "nc", some "nk", some "nh"⟩ :=
  ⟨(register_success_no_reclamation "user@example.com" "mygateway"
      "mygateway.example.com" false _ ⟨none, "abc123", some "mygateway"⟩
      ⟨"nc", "nk", "nh"⟩ rfl (by decide) rfl (by simp) rfl rfl rfl).1,
   (register_success_no_reclamation "user@example.com" "mygateway"
      "mygateway.example.com" false _ ⟨none, "abc123", some "mygateway"⟩
      ⟨"nc", "nk", "nh"⟩ rfl (by decide) rfl (by simp) rfl rfl rfl).2.1⟩

/-- Claim C8: once the subscribe and token-save steps have succeeded, the
challenge value of every `dnsconfig` request made during the invocation is,
verbatim and in order, the key-authorization digest the ACME client supplied
for that round — whatever the round outcomes and the remaining steps do. -/
theorem register_sends_digest_verbatim (email sub full : String)
    (reclamationToken : Option String) (optout : Bool) (env : RegisterEnv)
    (j : JsonToken)
    (hs : env.subscribe = SubscribeOutcome.ok j)
    (hj : jsTruthy j.error = false)
    (hst : env.settingsSet = Except.ok ()) :
    dnsChallengesSent
        (register email reclamationToken sub full optout env).events =
      env.dnsRounds.map DnsRound.keyAuthDigest := by
  obtain ⟨subo, st, rounds, acme, w, se, fs0⟩ := env
  simp only at hs hst
  subst hs
  subst hst
  cases acme with
  | failure e =>
    simp [register, hj, dnsChallengesSent, dnsChallengesSent_append,
      dnsChallengesSent_runDnsRounds]
  | success b =>
    rcases hw : writeCertificates fs0 b w with ⟨fs1, werr⟩
    cases werr with
    | some msg =>
      simp [register, hj, hw, dnsChallengesSent, dnsChallengesSent_append,
        dnsChallengesSent_runDnsRounds]
    | none =>
      by_cases hrt : jsTruthy reclamationToken
      · simp [register, hj, hw, hrt, dnsChallengesSent,
          dnsChallengesSent_append, dnsChallengesSent_runDnsRounds]
      · cases se with
        | error e =>
          simp [register, hj, hw, hrt, dnsChallengesSent,
            dnsChallengesSent_append, dnsChallengesSent_runDnsRounds]
        | ok u =>
          simp [register, hj, hw, hrt, dnsChallengesSent,
            dnsChallengesSent_append, dnsChallengesSent_runDnsRounds]

/-- Claim C8 at a concrete input: one challenge round with digest
`digest-xyz`; the `dnsconfig` request carries exactly that digest. -/
theorem register_sends_digest_verbatim_witness :
    dnsChallengesSent (register "user@example.com" none "mygateway"
        "mygateway.example.com" false
        ⟨SubscribeOutcome.ok ⟨none, "abc123", none⟩, Except.ok (),
         [⟨"digest-xyz", Except.ok ⟨200, "ok"⟩⟩],
         AcmeOutcome.success ⟨"nc", "nk", "nh"⟩,
         ⟨Except.ok (), Except.ok (), Except.ok ()⟩, Except.ok (),
         ⟨none, none, none⟩⟩).events = ["digest-xyz"] :=
  register_sends_digest_verbatim "user@example.com" "mygateway"
    "mygateway.example.com" none false _ ⟨none, "abc123", none⟩ rfl (by decide)
    rfl

/-- Claim C10: the DNS-challenge publisher resolves successfully for every
HTTP response actually received from the `dnsconfig` endpoint, regardless of
its status code; it rejects (and reports the error through the callback) only
when the request itself fails at the network level. -/
theorem leDnsResponse_ignores_status (token : String) (r : DnsRound) :
    (∀ resp, r.fetchResult = Except.ok resp →
      leDnsResponse token r =
        ([Event.fetchDnsConfig token r.keyAuthDigest], [],
         Except.ok "Success!")) ∧
    (∀ e, r.fetchResult = Except.error e →
      (leDnsResponse token r).2.2 = Except.error e ∧
        (leDnsResponse token r).2.1 = [CallbackCall.err e]) := by
  constructor
  · intro resp h
    simp [leDnsResponse, h]
  · intro e h
    simp [leDnsResponse, h]

/-- Claim C10 at a concrete input: a 500 response from the `dnsconfig`
endpoint still resolves the publisher as success. -/
theorem leDnsResponse_ignores_status_witness :
    (DnsRound.mk "digest-xyz" (Except.ok ⟨500, "server error"⟩)).fetchResult =
      Except.ok ⟨500, "server error"⟩ ∧
    leDnsResponse "abc123" ⟨"digest-xyz", Except.ok ⟨500, "server error"⟩⟩ =
      ([Event.fetchDnsConfig "abc123" "digest-xyz"], [], Except.ok "Success!") :=
  ⟨rfl, (leDnsResponse_ignores_status "abc123" _).1 ⟨500, "server error"⟩ rfl⟩

end Gateway

namespace RulesEngine

/-- Claim C9: getRules returns the stored rows as a mapping in which every
description has the migration step applied (a changed description is replaced
by the migrated one, an unchanged description is returned as stored), and the
queued `updateRule` writes — awaited before the promise resolves — are exactly
the changed descriptions, keyed by their row ids. -/
theorem getRules_migrates {α : Type} (migrate : α → Option α)
    (rows : List (Nat × α)) :
    (getRules migrate rows).1 =
      rows.map (fun p => (p.1, (migrate p.2).getD p.2)) ∧
    (getRules migrate rows).2 =
      rows.filterMap (fun p => (migrate p.2).map fun d => (p.1, d)) := by
  induction rows with
  | nil => exact ⟨rfl, rfl⟩
  | cons p rest ih =>
    rcases p with ⟨id, desc⟩
    cases hm : migrate desc <;> simp [getRules, hm, ih.1, ih.2]

end RulesEngine
